import Mathlib

/-!
Shallow embedding of the MIDICaptain Remedy control layer
(`src/remedy/main.py`) and of the tuner fragment of the legacy firmware
(`src/HKAudio_firmware/src/code.py`), together with theorems settling the
frozen claims about the specification.

Conventions:
* Python dicts are modelled as association lists whose set/lookup follow
  Python dict semantics (first occurrence wins, set replaces in place or
  appends at the end).
* Python `int(x)` on a numeric expression is modelled by `pyint` over exact
  rational arithmetic (truncation toward zero).  Every arithmetic
  expression embedded here is of the form `a / 2^k * c` or `a / 127 * c`
  on small integers; the CPython double computation of these expressions
  is exact for the power-of-two cases and stays far enough from integer
  boundaries for the `/ 127` cases used in the theorems below, so the
  rational model is faithful at each input where a theorem evaluates it.
* Collaborator modules that are not part of the repository snapshot
  (`lib/config`, `lib/events`) are modelled from the spec where a claim
  depends on them; each such definition carries a doc comment starting
  with `Modelled from the spec:`.
-/

namespace Remedy

/-- Python dict value as stored in `self._state` of `MidiCaptainApp`
(`src/remedy/main.py` line 52): booleans for `toggle.*` entries, integers
for `encoder.*` / `cc.*` entries. -/
inductive PyVal where
  | bool (b : Bool)
  | int (n : Int)
deriving DecidableEq, Repr

/-- The runtime state dict `self._state`. -/
abbrev Dict := List (String × PyVal)

/-- Lookup in a Python dict modelled as an association list (`d.get(k)` /
`d[k]`); the first occurrence of the key wins. -/
def alGet {β : Type} (d : List (String × β)) (k : String) : Option β :=
  match d with
  | [] => none
  | (k', v') :: rest => if k' = k then some v' else alGet rest k

/-- Assignment `d[k] = v` in a Python dict modelled as an association
list: replaces the first occurrence in place, or appends a new entry. -/
def alSet {β : Type} (d : List (String × β)) (k : String) (v : β) :
    List (String × β) :=
  match d with
  | [] => [(k, v)]
  | (k', v') :: rest => if k' = k then (k, v) :: rest else (k', v') :: alSet rest k v

/-- Lookup in a Python dict keyed by an integer (the CC→button reverse
map `self._cc_to_button`). -/
def nlGet {β : Type} (d : List (Int × β)) (k : Int) : Option β :=
  match d with
  | [] => none
  | (k', v') :: rest => if k' = k then some v' else nlGet rest k

/-- Assignment in an integer-keyed Python dict. -/
def nlSet {β : Type} (d : List (Int × β)) (k : Int) (v : β) :
    List (Int × β) :=
  match d with
  | [] => [(k, v)]
  | (k', v') :: rest => if k' = k then (k, v) :: rest else (k', v') :: nlSet rest k v

/-- Python `s.startswith(pre)`. -/
def strStartsWith (s pre : String) : Bool := pre.data.isPrefixOf s.data

/-- Python truthiness of an optional state entry, as used by
`self._state.get(state_key, False)` (`src/remedy/main.py` line 280):
a missing entry is falsy, a stored bool is itself, a stored int is truthy
iff nonzero (Python `bool` is a subtype of `int`). -/
def asBool (o : Option PyVal) : Bool :=
  match o with
  | none => false
  | some (.bool b) => b
  | some (.int n) => n ≠ 0

/-- Numeric reading of a state entry with a default, as used by
`self._state.get(state_key, 64)` (`src/remedy/main.py` line 336);
a stored Python bool reads as 0/1. -/
def asIntD (d : Int) (o : Option PyVal) : Int :=
  match o with
  | none => d
  | some (.int n) => n
  | some (.bool b) => if b then 1 else 0

/-- Python `int(q)` on an exact numeric value: truncation toward zero. -/
def pyint (q : ℚ) : ℤ := if 0 ≤ q then ⌊q⌋ else ⌈q⌉

/-- A resolved outgoing MIDI operation: `self.midi.send_cc(channel, cc, value)`
or `self.midi.send_sysex_param(address, data)` (a Roland DT1 data-set
message for the given address). -/
inductive MidiOp where
  | sendCC (channel cc value : Int)
  | sysexParam (address : List Nat) (data : List Int)
deriving DecidableEq, Repr

/-- Value of a configuration field: a string or a number (action `value`
fields hold either the literal token `"toggle"` or a numeric CC value). -/
inductive CfgVal where
  | str (s : String)
  | num (n : Int)
deriving DecidableEq, Repr

/-- An action descriptor from a page's button configuration
(`on_press` / `on_release` / `on_long_press` mappings); only the fields
the embedded code reads are kept (`type`, `value`, `cc`). -/
structure ActionCfg where
  type : Option String
  value : Option CfgVal
  cc : Option Int
deriving DecidableEq, Repr

/-- A button's configuration inside a page.  A button that is absent from
the page, or whose config dict is empty (falsy in Python, skipped by
`if not button_config`), is modelled as a `none` lookup result. -/
structure ButtonCfg where
  onPress : Option ActionCfg
  onRelease : Option ActionCfg
  onLongPress : Option ActionCfg
deriving DecidableEq, Repr

/-- The encoder section of a page: `bind` string and the `fallback.cc`
entry read at `src/remedy/main.py` lines 354-355. -/
structure EncoderCfg where
  bind : Option String
  fallbackCc : Option Int
deriving DecidableEq, Repr

/-- An expression-pedal section of a page: `bind` string and the `cc`
entry read at `src/remedy/main.py` line 381. -/
structure ExpCfg where
  bind : Option String
  cc : Option Int
deriving DecidableEq, Repr

/-- A SysEx parameter entry of the profile's parameter table
(`config/profile` `sysex.parameters.<name>`): `type`, `address`, optional
`cc_alias`, optional `min` / `max` bounds. -/
structure SysexParamCfg where
  type : Option String
  address : List Nat
  ccAlias : Option Int
  min : Option Int
  max : Option Int
deriving DecidableEq, Repr

/-- A loaded page configuration (`self.config._page`): the per-button
action descriptors plus the encoder and expression-pedal sections. -/
structure PageCfg where
  buttons : List (String × ButtonCfg)
  encoder : Option EncoderCfg
  expression : List (String × ExpCfg)
deriving DecidableEq, Repr

/-- The empty page dict, `self.config._page = {}`
(`src/remedy/main.py` line 638). -/
def emptyPage : PageCfg := ⟨[], none, []⟩

/-- Linear rescaling of a control value to a SysEx parameter's range,
`scaled = int(param_min + (value / 127) * (param_max - param_min))`
(`src/remedy/main.py` lines 350 and 378): Python `int()` truncation of the
exact value. -/
def sysexScale (pmin pmax v : Int) : Int :=
  pyint ((pmin : ℚ) + (v : ℚ) / 127 * ((pmax : ℚ) - (pmin : ℚ)))

/-- Resolution of an encoder binding to outgoing MIDI, the send half of
`_handle_encoder_event` (`src/remedy/main.py` lines 342-356): a
`sysex:<name>` bind looks the parameter up (default bounds 0/100) and
emits one DT1 set; an absent parameter emits nothing; any other bind
falls back to a CC send on `fallback.cc` (default 7). -/
def encoderResolve (ec : EncoderCfg) (params : List (String × SysexParamCfg))
    (ch : Int) (b : String) (v : Int) : List MidiOp :=
  if strStartsWith b "sysex:" then
    match alGet params (b.drop 6) with
    | some p => [.sysexParam p.address [sysexScale (p.min.getD 0) (p.max.getD 100) v]]
    | none => []
  else
    [.sendCC ch (ec.fallbackCc.getD 7) v]

/-- Integration of an encoder delta against the accumulated value,
`new_value = max(0, min(127, current + delta))`
(`src/remedy/main.py` line 339; the legacy firmware clamps identically at
`src/HKAudio_firmware/src/code.py` lines 705-707). -/
def integrate (current delta : Int) : Int := max 0 (min 127 (current + delta))

/-- Embeds `_handle_encoder_event` (`src/remedy/main.py` lines 316-358) on
its menu-inactive path: a zero delta or missing/empty bind is a no-op;
otherwise the accumulator entry `encoder.<bind>` (default 64) is
integrated with clamping, stored back, and the new absolute value is
handed to the binding resolution.  Returns the updated state dict and the
emitted MIDI operations. -/
def handleEncoderEvent (cfg : Option EncoderCfg)
    (params : List (String × SysexParamCfg)) (ch : Int) (st : Dict)
    (delta : Int) : Dict × List MidiOp :=
  if delta = 0 then (st, [])
  else
    match cfg with
    | none => (st, [])
    | some ec =>
      match ec.bind with
      | none => (st, [])
      | some b =>
        if b = "" then (st, [])
        else
          let current := asIntD 64 (alGet st ("encoder." ++ b))
          let newValue := integrate current delta
          (alSet st ("encoder." ++ b) (.int newValue),
           encoderResolve ec params ch b newValue)

/-- Embeds `_handle_expression_event` (`src/remedy/main.py` lines 360-384):
a `sysex:<name>` bind rescales the pedal value into the parameter's range
and emits one DT1 set (nothing when the parameter is absent); a
`midi_cc*` bind emits a CC send on the configured `cc` (default 1); any
other bind emits nothing. -/
def handleExpressionEvent (cfg : Option ExpCfg)
    (params : List (String × SysexParamCfg)) (ch : Int) (value : Int) :
    List MidiOp :=
  match cfg with
  | none => []
  | some ec =>
    match ec.bind with
    | none => []
    | some b =>
      if b = "" then []
      else if strStartsWith b "sysex:" then
        match alGet params (b.drop 6) with
        | some p => [.sysexParam p.address [sysexScale (p.min.getD 0) (p.max.getD 100) value]]
        | none => []
      else if strStartsWith b "midi_cc" then
        [.sendCC ch (ec.cc.getD 1) value]
      else []

/-- Button event kind delivered by the hardware layer: the `action`
field of a `ButtonEvent` is one of `press`, `release`, `long_press`. -/
inductive BtnAct where
  | press
  | release
  | longPress
deriving DecidableEq, Repr

/-- Modelled from the spec: `Action.from_config` / `Action.execute` live in
`lib/events`, which is not part of the repository snapshot.  Per the spec
(section 4.5), a `midi_cc` action whose configured `value` is the literal
token `toggle` emits CC value 127 exactly when the new (flipped) toggle
state of the pressed button is true and 0 when it is false; it reads the
shared state dict but does not itself write the toggle entry (the
coordinator records the flip afterwards, `src/remedy/main.py` lines
278-281 — if `execute` also wrote the entry, the coordinator's subsequent
flip would undo it, contradicting the spec's pressing-flips contract).
A `midi_cc` action with a numeric value emits that value; a config with
no usable fields is a no-op. -/
def actionExecute (ch : Int) (btnId : String) (cfg : ActionCfg) (st : Dict) :
    List MidiOp :=
  if cfg.type = some "midi_cc" then
    match cfg.cc with
    | none => []
    | some c =>
      if cfg.value = some (.str "toggle") then
        let newState := !asBool (alGet st ("toggle." ++ btnId))
        [.sendCC ch c (if newState then 127 else 0)]
      else
        match cfg.value with
        | some (.num v) => [.sendCC ch c v]
        | _ => []
  else []

/-- Result of a button event: the state dict after the handler, the MIDI
operations emitted by the executed action, and the state dict as it was
at the moment `action.execute(self.context)` ran (`none` when no action
was executed). -/
structure BtnResult where
  post : Dict
  ops : List MidiOp
  execState : Option Dict
deriving DecidableEq, Repr

/-- Embeds `_handle_button_event` (`src/remedy/main.py` lines 264-291) on
its normal path (menu inactive, no setlist up/down interception, not the
encoder button): the button's config is looked up, the `on_<action>`
descriptor is executed, and — for a press whose configured value is the
literal `toggle` — the `toggle.<button>` entry is flipped afterwards
(`toggled = not self._state.get(state_key, False)`). -/
def handleButtonEvent (page : List (String × ButtonCfg)) (ch : Int)
    (st : Dict) (btnId : String) (act : BtnAct) : BtnResult :=
  match alGet page btnId with
  | none => ⟨st, [], none⟩
  | some bc =>
    let acfg :=
      match act with
      | .press => bc.onPress
      | .release => bc.onRelease
      | .longPress => bc.onLongPress
    match acfg with
    | none => ⟨st, [], none⟩
    | some a =>
      let ops := actionExecute ch btnId a st
      let post :=
        if act = .press ∧ a.value = some (.str "toggle") then
          alSet st ("toggle." ++ btnId)
            (.bool (!asBool (alGet st ("toggle." ++ btnId))))
        else st
      ⟨post, ops, some st⟩

/-- Embeds `_sync_cc_to_toggle` (`src/remedy/main.py` lines 529-536): when
the CC→button reverse map exists (`hasattr(self, '_cc_to_button')`) and
contains the CC number, the mapped button's toggle entry is overwritten
with `value > 63`; otherwise the state is untouched. -/
def syncCcToToggle (ccMap : Option (List (Int × String))) (st : Dict)
    (cc value : Int) : Dict :=
  match ccMap with
  | none => st
  | some m =>
    match nlGet m cc with
    | none => st
    | some btnId => alSet st ("toggle." ++ btnId) (.bool (decide (value > 63)))

/-- Result of handling a SysEx response: the state dict afterwards and
the `(cc, value)` argument pairs passed to `_sync_cc_to_toggle`. -/
structure SysexResult where
  state : Dict
  syncCalls : List (Int × Int)
deriving DecidableEq, Repr

/-- Body of the parameter loop of `_handle_sysex_response`
(`src/remedy/main.py` lines 565-569): a bool-typed parameter whose
address matches and which declares a `cc_alias` routes
`param_data[0] * 127` through the CC-sync path, threading the state and
recording the call; every other parameter is skipped. -/
def sysexStep (ccMap : Option (List (Int × String))) (addr pdata : List Nat)
    (acc : SysexResult) (p : String × SysexParamCfg) : SysexResult :=
  if p.2.type = some "bool" ∧ p.2.address = addr then
    match p.2.ccAlias, pdata with
    | some c, b :: _ =>
      ⟨syncCcToToggle ccMap acc.state c ((b : Int) * 127),
       acc.syncCalls ++ [(c, (b : Int) * 127)]⟩
    | _, _ => acc
  else acc

/-- Embeds `_handle_sysex_response` (`src/remedy/main.py` lines 538-569):
a payload shorter than 10 bytes or an empty parameter table is discarded;
when byte 5 is the DT1 operation 0x12, bytes 6-9 are the address and
bytes 10..-2 the data, and the parameter loop (`sysexStep` is its body)
routes `param_data[0] * 127` through the CC-sync path for every
bool-typed parameter whose address matches and which declares a
`cc_alias`. -/
def handleSysexResponse (params : List (String × SysexParamCfg))
    (ccMap : Option (List (Int × String))) (st : Dict) (raw : List Nat) :
    SysexResult :=
  if raw.length < 10 then ⟨st, []⟩
  else if params = [] then ⟨st, []⟩
  else if raw.getD 5 0 = 0x12 then
    let addr := (raw.drop 6).take 4
    let pdata := (raw.drop 10).dropLast
    params.foldl (sysexStep ccMap addr pdata) ⟨st, []⟩
  else ⟨st, []⟩

/-- The fixed button-name list iterated by `_build_cc_button_map` and
`_update_leds` (`src/remedy/main.py` line 520). -/
def buttonNames : List String :=
  ["1", "2", "3", "4", "A", "B", "C", "D", "up", "down"]

/-- Embeds `_build_cc_button_map` (`src/remedy/main.py` lines 517-527):
the reverse map CC number → button id over all buttons whose `on_press`
is a `midi_cc` action with the literal value `toggle` and a `cc` key. -/
def buildCcButtonMap (pg : PageCfg) : List (Int × String) :=
  buttonNames.foldl
    (fun m bId =>
      match alGet pg.buttons bId with
      | none => m
      | some bc =>
        match bc.onPress with
        | none => m
        | some op =>
          if op.type = some "midi_cc" ∧ op.value = some (.str "toggle") then
            match op.cc with
            | some c => nlSet m c bId
            | none => m
          else m)
    []

/-- Coordinator state owned by `MidiCaptainApp` as far as page changes
observe it: the runtime state dict, the current page name, the loaded
page config (`self.config._page`), the CC→button reverse map (`none`
while the `_cc_to_button` attribute does not exist yet), and the
discovered page list. -/
structure AppState where
  state : Dict
  currentPage : Option String
  page : PageCfg
  ccToButton : Option (List (Int × String))
  pages : List String
deriving DecidableEq, Repr

/-- Python `list.index` returning the first index of an element. -/
def pyIndex : List String → String → Option Nat
  | [], _ => none
  | y :: ys, x => if y = x then some 0 else (pyIndex ys x).map (· + 1)

/-- Target computation of `_on_page_change` (`src/remedy/main.py` lines
613-627): a truthy `page_name` wins; otherwise a truthy direction cycles
through the discovered page list from the current page's index (0 when
absent, Python `ValueError` fallback), wrapping modulo the list length;
otherwise there is no target and the request returns immediately. -/
def resolveTarget (s : AppState) (pageName direction : Option String) :
    Option String :=
  let dirTarget :=
    match direction with
    | none => none
    | some d =>
      if d ≠ "" ∧ s.pages ≠ [] then
        let idx :=
          match s.currentPage with
          | some c => (pyIndex s.pages c).getD 0
          | none => 0
        let idx2 :=
          if d = "next" then (idx + 1) % s.pages.length
          else if d = "prev" then (idx + s.pages.length - 1) % s.pages.length
          else idx
        some (s.pages.getD idx2 "")
      else none
  match pageName with
  | some t => if t ≠ "" then some t else dirTarget
  | none => dirTarget

/-- Modelled from the spec: `Config.load_page` lives in `lib/config`,
which is not part of the repository snapshot; per the spec it loads the
named page's configuration and raises `ConfigError` when the page is
absent.  Modelled as a lookup in the library of available pages. -/
def loadPage (lib : List (String × PageCfg)) (target : String) :
    Option PageCfg :=
  alGet lib target

/-- Removal of every `toggle.*` entry from the state dict
(`src/remedy/main.py` lines 633-635). -/
def clearToggles (st : Dict) : Dict :=
  st.filter (fun p => !strStartsWith p.1 "toggle.")

/-- The body of `_on_page_change` past the early returns
(`src/remedy/main.py` lines 632-649): toggle entries are cleared and the
old page dict emptied first; then, if loading the target page succeeds,
the current page is updated and the CC→button map rebuilt, while on
`ConfigError` only the error is logged — the cleared state and emptied
page dict remain. -/
def applyPage (lib : List (String × PageCfg)) (s : AppState)
    (target : String) : AppState :=
  let cleared := clearToggles s.state
  match loadPage lib target with
  | some cfg =>
    { s with
      state := cleared
      page := cfg
      currentPage := some target
      ccToButton := some (buildCcButtonMap cfg) }
  | none =>
    { s with state := cleared, page := emptyPage }

/-- Embeds `_on_page_change` (`src/remedy/main.py` lines 611-649): target
resolution, the already-on-this-page early return (taken only when no
explicit page name was given), then the clear-and-load body. -/
def onPageChange (lib : List (String × PageCfg)) (s : AppState)
    (pageName direction : Option String) : AppState :=
  match resolveTarget s pageName direction with
  | none => s
  | some target =>
    if s.currentPage = some target ∧ pageName = none then s
    else applyPage lib s target

/-- Tuner-relevant MIDI messages handled by `MIDI_parse`
(`src/HKAudio_firmware/src/code.py` lines 608-651). -/
inductive TMsg where
  | noteOn (note : Nat)
  | noteOff
  | pitchBend (raw : Nat)
deriving DecidableEq, Repr

/-- Tuner display state of the legacy firmware: the globals `TunerMode`,
`NoteName` and `Pitch` (`src/HKAudio_firmware/src/code.py` lines
408-411; `Pitch` only ever holds the integer cents written by the
handlers after initialisation). -/
structure TunerSt where
  tunerMode : Bool
  noteName : String
  pitch : Int
deriving DecidableEq, Repr

/-- The pitch-class table `NoteNames`
(`src/HKAudio_firmware/src/code.py` line 68). -/
def noteNames : List String :=
  ["C", "C#", "D", "Eb", "E", "F", "F#", "G", "G#", "A", "Bb", "B"]

/-- Cents derived from a raw 14-bit pitch-bend value,
`newPitch = int((raw - 8192) / 8192 * 200)` then `min(29, ·)` and
`max(-29, ·)` (`src/HKAudio_firmware/src/code.py` lines 641-645).  The
double computation of `(raw - 8192) / 8192 * 200` is exact (a dyadic
rational of at most 18 significant bits), so `pyint` over ℚ is an exact
model of the Python `int()` call. -/
def pitchCents (raw : Nat) : Int :=
  max (-29) (min 29 (pyint (((raw : ℚ) - 8192) / 8192 * 200)))

/-- Embeds the tuner fragment of `MIDI_parse`
(`src/HKAudio_firmware/src/code.py` lines 608-651): while `TunerMode` is
set, NoteOn derives the note name from the 12-entry pitch-class table and
the octave `int(note / 12) - 1` and stores it only on change; NoteOff
resets the name to `"----"` — and, only inside that same change guard,
the cents to 0; PitchBend stores the clamped cents only on change.
While `TunerMode` is clear nothing is touched. -/
def midiParse (s : TunerSt) (m : TMsg) : TunerSt :=
  match m with
  | .noteOn n =>
    if s.tunerMode then
      let newName := noteNames.getD (n % 12) "" ++ toString ((n / 12 : Nat) - 1 : Int)
      if s.noteName ≠ newName then { s with noteName := newName } else s
    else s
  | .noteOff =>
    if s.tunerMode then
      if s.noteName ≠ "----" then { s with noteName := "----", pitch := 0 }
      else s
    else s
  | .pitchBend raw =>
    if s.tunerMode then
      let p := pitchCents raw
      if s.pitch ≠ p then { s with pitch := p } else s
    else s

/-- Follows the claim's words (C1), for comparison with `sysexScale`
embedded from the source: data byte `min + round(value/127 * (max-min))`. -/
def scaleClaim (pmin pmax v : Int) : Int :=
  pmin + round ((v : ℚ) / 127 * ((pmax : ℚ) - (pmin : ℚ)))

/-- Follows the claim's words (C6), for comparison with `pitchCents`
embedded from the source:
cents `clamp(round((raw − 8192) / 8192 * 200), −29, 29)`. -/
def centsClaim (raw : Nat) : Int :=
  max (-29) (min 29 (round (((raw : ℚ) - 8192) / 8192 * 200)))

/-! ### Helper lemmas -/

/-- Python truncation toward zero is monotone. -/
theorem pyint_mono {q r : ℚ} (h : q ≤ r) : pyint q ≤ pyint r := by
  unfold pyint
  by_cases hq : 0 ≤ q
  · rw [if_pos hq, if_pos (le_trans hq h)]
    exact Int.floor_mono h
  · rw [if_neg hq]
    by_cases hr : 0 ≤ r
    · rw [if_pos hr]
      have h1 : ⌈q⌉ ≤ 0 := by
        have := Int.ceil_mono (le_of_lt (lt_of_not_le hq))
        simpa using this
      have h2 : 0 ≤ ⌊r⌋ := by
        have := Int.floor_mono hr
        simpa using this
      exact le_trans h1 h2
    · rw [if_neg hr]
      exact Int.ceil_mono h

/-- Setting a key makes it readable. -/
theorem alGet_alSet_self {β : Type} (d : List (String × β)) (k : String)
    (v : β) : alGet (alSet d k v) k = some v := by
  induction d with
  | nil => simp [alGet, alSet]
  | cons p rest ih =>
    by_cases h : p.1 = k
    · simp [alGet, alSet, h]
    · simp [alGet, alSet, h, ih]

/-- After clearing the toggle entries, no `toggle.*` key is readable. -/
theorem alGet_clearToggles (d : Dict) (k : String)
    (hk : strStartsWith k "toggle." = true) :
    alGet (clearToggles d) k = none := by
  induction d with
  | nil => rfl
  | cons p rest ih =>
    unfold clearToggles at ih ⊢
    rw [List.filter_cons]
    by_cases hp : strStartsWith p.1 "toggle." = true
    · simp only [hp, Bool.not_true, if_neg]
      simpa using ih
    · have hp' : (!strStartsWith p.1 "toggle.") = true := by
        simp [Bool.not_eq_true] at hp ⊢
        exact hp
      rw [if_pos hp']
      have hne : p.1 ≠ k := by
        intro he
        rw [he, hk] at hp
        exact hp rfl
      simpa [alGet, hne] using ih

/-- Range of a single clamped integration step. -/
theorem integrate_range (prev delta : Int) :
    0 ≤ integrate prev delta ∧ integrate prev delta ≤ 127 := by
  unfold integrate
  constructor
  · exact le_max_left 0 _
  · exact max_le (by norm_num) (min_le_left _ _)

/-- Range of the accumulated value after a nonempty run of integration
steps. -/
theorem foldl_integrate_range (ds : List Int) (prev : Int) (h : ds ≠ []) :
    0 ≤ ds.foldl integrate prev ∧ ds.foldl integrate prev ≤ 127 := by
  induction ds generalizing prev with
  | nil => exact absurd rfl h
  | cons d rest ih =>
    cases rest with
    | nil => simpa using integrate_range prev d
    | cons e es => simpa using ih (integrate prev d) (by simp)

/-! ### Claim C5 -/

/-- Claim C5 (confirmed): every integration step
`clamp(previous + delta, 0, 127)` lands in [0,127], hence any nonempty
sequence of encoder deltas keeps the accumulated value in [0,127]; from
64, applying +200 yields 127 and then applying −200 yields 0. -/
theorem c5_encoder_clamped :
    (∀ prev delta : Int,
      0 ≤ integrate prev delta ∧ integrate prev delta ≤ 127)
    ∧ (∀ (ds : List Int) (prev : Int), ds ≠ [] →
        0 ≤ ds.foldl integrate prev ∧ ds.foldl integrate prev ≤ 127)
    ∧ integrate 64 200 = 127 ∧ integrate (integrate 64 200) (-200) = 0 :=
  ⟨integrate_range, foldl_integrate_range, by decide, by decide⟩

/-- Witness for C5: the hypothesis `ds ≠ []` discharged at the concrete
run `+200` then `−200` from 64. -/
theorem c5_encoder_clamped_witness :
    0 ≤ [(200 : Int), -200].foldl integrate 64
    ∧ [(200 : Int), -200].foldl integrate 64 ≤ 127 :=
  c5_encoder_clamped.2.1 [200, -200] 64 (by decide)

/-! ### Claim C9 -/

/-- Claim C9 (confirmed): when the CC→button reverse map has not been
built yet, or the received CC number is not in it, the CC-to-toggle sync
path leaves the coordinator state dict exactly unchanged. -/
theorem c9_sync_frame (ccMap : Option (List (Int × String))) (st : Dict)
    (cc value : Int)
    (h : ccMap = none ∨ ∀ m, ccMap = some m → nlGet m cc = none) :
    syncCcToToggle ccMap st cc value = st := by
  cases hc : ccMap with
  | none => rfl
  | some m =>
    rcases h with h | h
    · exact absurd (hc ▸ h) (by simp)
    · simp [syncCcToToggle, h m hc]

/-- Witness for C9: CC 20 received while the reverse map only knows
CC 21 leaves the state untouched. -/
theorem c9_sync_frame_witness :
    syncCcToToggle (some [(21, "A")]) [("toggle.A", PyVal.bool true)] 20 127
      = [("toggle.A", PyVal.bool true)] :=
  c9_sync_frame (some [(21, "A")]) [("toggle.A", PyVal.bool true)] 20 127
    (Or.inr (by intro m hm; cases hm; decide))

/-! ### Claim C10 -/

/-- Claim C10 (confirmed): on the first encoder event under a binding —
no accumulator entry in the state — the accumulated value starts at 64,
so a delta `d` stores and resolves `clamp(64 + d, 0, 127)`. -/
theorem c10_encoder_default (ec : EncoderCfg)
    (params : List (String × SysexParamCfg)) (ch : Int) (st : Dict)
    (b : String) (d : Int) (hb : ec.bind = some b) (hne : b ≠ "")
    (hd : d ≠ 0) (hfresh : alGet st ("encoder." ++ b) = none) :
    handleEncoderEvent (some ec) params ch st d =
      (alSet st ("encoder." ++ b) (.int (max 0 (min 127 (64 + d)))),
       encoderResolve ec params ch b (max 0 (min 127 (64 + d)))) := by
  simp [handleEncoderEvent, hb, hd, hne, hfresh, asIntD, integrate]

/-- Witness for C10: first event with delta 5 on bind `"x"` stores and
resolves 69. -/
theorem c10_encoder_default_witness :
    handleEncoderEvent (some ⟨some "x", none⟩) [] 0 [] 5 =
      (alSet [] ("encoder." ++ "x") (.int (max 0 (min 127 (64 + 5)))),
       encoderResolve ⟨some "x", none⟩ [] 0 "x" (max 0 (min 127 (64 + 5)))) :=
  c10_encoder_default ⟨some "x", none⟩ [] 0 [] "x" 5 rfl (by decide)
    (by decide) rfl

/-! ### Claim C7 -/

/-- Claim C7 (confirmed): after every successful page change — a request
that resolves to a target, is not the already-on-this-page early return,
and whose page load succeeds — the state dict contains no `toggle.*`
entry. -/
theorem c7_page_change_clears (lib : List (String × PageCfg)) (s : AppState)
    (pn dir : Option String) (target : String) (cfg : PageCfg) (k : String)
    (hres : resolveTarget s pn dir = some target)
    (hskip : ¬(s.currentPage = some target ∧ pn = none))
    (hload : loadPage lib target = some cfg)
    (hk : strStartsWith k "toggle." = true) :
    alGet (onPageChange lib s pn dir).state k = none := by
  unfold onPageChange
  rw [hres]
  simp only [hskip, if_false]
  unfold applyPage
  rw [hload]
  exact alGet_clearToggles s.state k hk

/-- Witness for C7: a state holding `toggle.A = true` changes to page
`other`; afterwards `toggle.A` is gone. -/
theorem c7_page_change_clears_witness :
    alGet (onPageChange [("other", emptyPage)]
        ⟨[("toggle.A", PyVal.bool true)], some "home", emptyPage, none,
          ["home", "other"]⟩
        (some "other") none).state "toggle.A" = none :=
  c7_page_change_clears [("other", emptyPage)]
    ⟨[("toggle.A", PyVal.bool true)], some "home", emptyPage, none,
      ["home", "other"]⟩
    (some "other") none "other" emptyPage "toggle.A" (by decide)
    (by decide) (by decide) (by decide)

/-! ### Claim C1 -/

/-- Claim C1 (corrected): resolving a `sysex:<name>` binding for a
control value v — on the expression-pedal path and on the encoder path
alike — emits exactly one DT1 set whose data byte is
`int(min + v/127 * (max − min))` — Python truncation toward zero of the
whole expression, not `min + round(v/127 * (max − min))` as claimed —
and emits nothing when the named parameter is absent. -/
theorem c1_sysex_binding (ec : ExpCfg) (params : List (String × SysexParamCfg))
    (ch v : Int) (b : String) (hb : ec.bind = some b) (hne : b ≠ "")
    (hsys : strStartsWith b "sysex:" = true) (_hv0 : 0 ≤ v) (_hv1 : v ≤ 127) :
    (∀ p : SysexParamCfg, alGet params (b.drop 6) = some p →
      handleExpressionEvent (some ec) params ch v =
        [.sysexParam p.address
          [pyint ((p.min.getD 0 : ℚ) +
            (v : ℚ) / 127 * ((p.max.getD 100 : ℚ) - (p.min.getD 0 : ℚ)))]])
    ∧ (alGet params (b.drop 6) = none →
      handleExpressionEvent (some ec) params ch v = [])
    ∧ (∀ (eec : EncoderCfg) (p : SysexParamCfg),
      alGet params (b.drop 6) = some p →
      encoderResolve eec params ch b v =
        [.sysexParam p.address
          [pyint ((p.min.getD 0 : ℚ) +
            (v : ℚ) / 127 * ((p.max.getD 100 : ℚ) - (p.min.getD 0 : ℚ)))]])
    ∧ (∀ eec : EncoderCfg, alGet params (b.drop 6) = none →
      encoderResolve eec params ch b v = []) := by
  refine ⟨?_, ?_, ?_, ?_⟩
  · intro p hp
    simp [handleExpressionEvent, hb, hne, hsys, hp, sysexScale]
  · intro hp
    simp [handleExpressionEvent, hb, hne, hsys, hp]
  · intro eec p hp
    simp [encoderResolve, hsys, hp, sysexScale]
  · intro eec hp
    simp [encoderResolve, hsys, hp]

/-- Counterexample for C1 as stated: parameter `wah` with range [0,100]
and control value 1 — the code emits data byte `int(0.787...) = 0`, while
the claim's formula `min + round(v/127 * (max−min))` yields 1. -/
theorem c1_sysex_binding_counterexample :
    handleExpressionEvent (some ⟨some "sysex:wah", none⟩)
        [("wah", ⟨none, [0, 0, 1, 0], none, some 0, some 100⟩)] 0 1 =
      [.sysexParam [0, 0, 1, 0] [0]]
    ∧ scaleClaim 0 100 1 = 1 ∧ (0 : Int) ≠ 1 := by
  refine ⟨?_, ?_, by decide⟩
  · have h : sysexScale 0 100 1 = 0 := by
      unfold sysexScale pyint
      rw [if_pos (by norm_num)]
      norm_num [Int.floor_eq_iff]
    have e1 : handleExpressionEvent (some ⟨some "sysex:wah", none⟩)
        [("wah", ⟨none, [0, 0, 1, 0], none, some 0, some 100⟩)] 0 1 =
        [.sysexParam [0, 0, 1, 0] [sysexScale 0 100 1]] := rfl
    rw [e1, h]
  · unfold scaleClaim
    rw [round_eq]
    norm_num [Int.floor_eq_iff]

/-- Witness for C1: the amended theorem applied at value 64 for
parameter `wah` with range [0,100]. -/
theorem c1_sysex_binding_witness :
    handleExpressionEvent (some ⟨some "sysex:wah", none⟩)
        [("wah", ⟨none, [0, 0, 1, 0], none, some 0, some 100⟩)] 0 64 =
      [.sysexParam [0, 0, 1, 0]
        [pyint (((0 : Int) : ℚ) +
          ((64 : Int) : ℚ) / 127 * (((100 : Int) : ℚ) - ((0 : Int) : ℚ)))]] :=
  (c1_sysex_binding ⟨some "sysex:wah", none⟩
      [("wah", ⟨none, [0, 0, 1, 0], none, some 0, some 100⟩)] 0 64
      "sysex:wah" rfl (by decide) (by decide) (by decide) (by decide)).1
    ⟨none, [0, 0, 1, 0], none, some 0, some 100⟩ rfl

/-! ### Claim C2 -/

/-- Claim C2 (corrected): a page-change request by explicit page name
clears the `toggle.*` entries and discards the old page config before
attempting the load; on success the target page, rebuilt CC→button map
and cleared state are installed together, but on a failed load the
already-cleared state and emptied page config remain — only the current
page name and the reverse map are left as they were, so the request is
not atomic. -/
theorem c2_page_change (lib : List (String × PageCfg)) (s : AppState)
    (t : String) (ht : t ≠ "") :
    (∀ cfg : PageCfg, loadPage lib t = some cfg →
      onPageChange lib s (some t) none =
        { s with
          state := clearToggles s.state
          page := cfg
          currentPage := some t
          ccToButton := some (buildCcButtonMap cfg) })
    ∧ (loadPage lib t = none →
      onPageChange lib s (some t) none =
        { s with state := clearToggles s.state, page := emptyPage }) := by
  have hres : resolveTarget s (some t) none = some t := by
    simp [resolveTarget, ht]
  have hcond : ¬(s.currentPage = some t ∧ (some t : Option String) = none) := by
    simp
  constructor
  · intro cfg hcfg
    simp [onPageChange, hres, hcond, applyPage, hcfg]
  · intro hcfg
    simp [onPageChange, hres, hcond, applyPage, hcfg]

/-- Counterexample for C2 as stated: loading page `missing` fails, yet
the coordinator's state is not as it was before the request — the
`toggle.A` entry has been cleared. -/
theorem c2_page_change_counterexample :
    loadPage [("home", emptyPage)] "missing" = none
    ∧ onPageChange [("home", emptyPage)]
        ⟨[("toggle.A", PyVal.bool true)], some "home", emptyPage, none,
          ["home"]⟩ (some "missing") none ≠
      ⟨[("toggle.A", PyVal.bool true)], some "home", emptyPage, none,
        ["home"]⟩
    ∧ alGet (onPageChange [("home", emptyPage)]
        ⟨[("toggle.A", PyVal.bool true)], some "home", emptyPage, none,
          ["home"]⟩ (some "missing") none).state "toggle.A" = none := by
  decide

/-- Witness for C2: the amended theorem's success branch applied to a
concrete state holding `toggle.A = true`. -/
theorem c2_page_change_witness :
    onPageChange [("other", emptyPage)]
        ⟨[("toggle.A", PyVal.bool true)], some "home", emptyPage, none,
          ["home", "other"]⟩ (some "other") none =
      { state := clearToggles [("toggle.A", PyVal.bool true)]
        currentPage := some "other"
        page := emptyPage
        ccToButton := some (buildCcButtonMap emptyPage)
        pages := ["home", "other"] } :=
  (c2_page_change [("other", emptyPage)]
      ⟨[("toggle.A", PyVal.bool true)], some "home", emptyPage, none,
        ["home", "other"]⟩ "other" (by decide)).1 emptyPage rfl

/-! ### Claim C3 -/

/-- Claim C3 (corrected): pressing a button whose configured `on_press`
value is the literal token `toggle` executes the action first — against
the pre-flip state (`execState = some st`) — and flips the
`ToggleState` entry immediately afterwards; the emitted CC value is 127
when the new (flipped) state is true and 0 when it is false, because the
action itself computes the flipped value rather than reading a
pre-flipped entry. -/
theorem c3_toggle_press (page : List (String × ButtonCfg)) (ch : Int)
    (st : Dict) (btnId : String) (bc : ButtonCfg) (a : ActionCfg) (c : Int)
    (hbc : alGet page btnId = some bc) (hop : bc.onPress = some a)
    (htype : a.type = some "midi_cc") (hval : a.value = some (.str "toggle"))
    (hcc : a.cc = some c) :
    (handleButtonEvent page ch st btnId .press).execState = some st
    ∧ (handleButtonEvent page ch st btnId .press).post =
        alSet st ("toggle." ++ btnId)
          (.bool (!asBool (alGet st ("toggle." ++ btnId))))
    ∧ (handleButtonEvent page ch st btnId .press).ops =
        [.sendCC ch c
          (if !asBool (alGet st ("toggle." ++ btnId)) then 127 else 0)] := by
  refine ⟨?_, ?_, ?_⟩ <;>
    simp [handleButtonEvent, hbc, hop, actionExecute, htype, hval, hcc]

/-- Counterexample for C3 as stated: on a press of toggle-button `A`
with no prior toggle entry, the action executes against the state
without the flip (`execState = some []`), while the post-state holds the
flipped entry — the flip does not happen before execution. -/
theorem c3_toggle_press_counterexample :
    (handleButtonEvent
        [("A", ⟨some ⟨some "midi_cc", some (.str "toggle"), some 20⟩, none,
          none⟩)] 0 [] "A" .press).execState = some []
    ∧ alGet (handleButtonEvent
        [("A", ⟨some ⟨some "midi_cc", some (.str "toggle"), some 20⟩, none,
          none⟩)] 0 [] "A" .press).post "toggle.A" =
        some (PyVal.bool true) := by
  decide

/-- Witness for C3: the amended theorem applied on a state where
`toggle.A` is already true — the press emits CC value 0 and flips the
entry to false, having executed against the pre-flip state. -/
theorem c3_toggle_press_witness :
    (handleButtonEvent
        [("A", ⟨some ⟨some "midi_cc", some (.str "toggle"), some 20⟩, none,
          none⟩)] 1 [("toggle.A", PyVal.bool true)] "A" .press).execState =
      some [("toggle.A", PyVal.bool true)]
    ∧ (handleButtonEvent
        [("A", ⟨some ⟨some "midi_cc", some (.str "toggle"), some 20⟩, none,
          none⟩)] 1 [("toggle.A", PyVal.bool true)] "A" .press).post =
      [("toggle.A", PyVal.bool false)]
    ∧ (handleButtonEvent
        [("A", ⟨some ⟨some "midi_cc", some (.str "toggle"), some 20⟩, none,
          none⟩)] 1 [("toggle.A", PyVal.bool true)] "A" .press).ops =
      [.sendCC 1 20 0] := by
  have h := c3_toggle_press
    [("A", ⟨some ⟨some "midi_cc", some (.str "toggle"), some 20⟩, none,
      none⟩)] 1 [("toggle.A", PyVal.bool true)] "A"
    ⟨some ⟨some "midi_cc", some (.str "toggle"), some 20⟩, none, none⟩
    ⟨some "midi_cc", some (.str "toggle"), some 20⟩ 20 rfl rfl rfl rfl rfl
  exact ⟨h.1, h.2.1, h.2.2⟩

/-! ### Claim C4 -/

/-- Claim C4 (corrected): while the tuner is active, a Note-Off sets the
note name to `"----"` and the cents to 0 only when the current name is
not already the placeholder; when the name is already `"----"`, the
whole update — including the cents reset — is skipped by the
only-on-change guard, so the previous cents value survives. -/
theorem c4_noteoff (s : TunerSt) (hmode : s.tunerMode = true) :
    (s.noteName ≠ "----" →
      midiParse s .noteOff = { s with noteName := "----", pitch := 0 })
    ∧ (s.noteName = "----" → midiParse s .noteOff = s) := by
  constructor
  · intro h
    simp [midiParse, hmode, h]
  · intro h
    simp [midiParse, hmode, h]

/-- Counterexample for C4 as stated: from the reachable tuner state
(active, placeholder name, cents 0), a PitchBend of 8400 sets cents to 5;
the Note-Off that follows leaves cents at 5, not 0. -/
theorem c4_noteoff_counterexample :
    (midiParse (midiParse ⟨true, "----", 0⟩ (.pitchBend 8400)) .noteOff).pitch
      = 5
    ∧ (5 : Int) ≠ 0 := by
  have harg : (((8400 : Nat) : ℚ) - 8192) / 8192 * 200 = 325 / 64 := by
    norm_num
  have hf : pyint (325 / 64 : ℚ) = 5 := by
    unfold pyint
    rw [if_pos (by norm_num)]
    norm_num [Int.floor_eq_iff]
  have hpc : pitchCents 8400 = 5 := by
    unfold pitchCents
    rw [harg, hf]
    decide
  have h1 : midiParse ⟨true, "----", 0⟩ (.pitchBend 8400) =
      ⟨true, "----", 5⟩ := by
    simp [midiParse, hpc]
  rw [h1]
  exact ⟨rfl, by decide⟩

/-- Witness for C4: Note-Off from an active tuner showing `C4` resets
both the name and the cents. -/
theorem c4_noteoff_witness :
    (⟨true, "C4", 7⟩ : TunerSt).noteName ≠ "----"
    ∧ midiParse ⟨true, "C4", 7⟩ .noteOff = ⟨true, "----", 0⟩ :=
  ⟨by decide, (c4_noteoff ⟨true, "C4", 7⟩ rfl).1 (by decide)⟩

/-! ### Claim C6 -/

/-- Claim C6 (corrected): while the tuner is active, a pitch-bend of raw
value r yields cents `clamp(int((r − 8192) / 8192 * 200), −29, 29)` —
Python truncation toward zero, not `round` as claimed; the value always
lies in [−29, 29], is monotone non-decreasing in the raw value, and
raw = 8192 yields exactly 0. -/
theorem c6_pitchbend (s : TunerSt) (raw raw2 : Nat)
    (hmode : s.tunerMode = true) (hle : raw ≤ raw2)
    (_hub : raw2 ≤ 16383) :
    (midiParse s (.pitchBend raw)).pitch = pitchCents raw
    ∧ (-29 ≤ pitchCents raw ∧ pitchCents raw ≤ 29)
    ∧ pitchCents raw ≤ pitchCents raw2
    ∧ pitchCents 8192 = 0 := by
  refine ⟨?_, ⟨le_max_left _ _, max_le (by norm_num) (min_le_left _ _)⟩,
    ?_, ?_⟩
  · by_cases h : s.pitch = pitchCents raw <;> simp [midiParse, hmode, h]
  · unfold pitchCents
    have h2 : ((raw : ℚ) - 8192) ≤ ((raw2 : ℚ) - 8192) := by
      have h1 : ((raw : ℚ)) ≤ ((raw2 : ℚ)) := by exact_mod_cast hle
      linarith
    have h3 : ((raw : ℚ) - 8192) / 8192 ≤ ((raw2 : ℚ) - 8192) / 8192 :=
      (div_le_div_iff_of_pos_right (by norm_num : (0 : ℚ) < 8192)).mpr h2
    have hq : ((raw : ℚ) - 8192) / 8192 * 200 ≤
        ((raw2 : ℚ) - 8192) / 8192 * 200 :=
      mul_le_mul_of_nonneg_right h3 (by norm_num)
    exact max_le_max le_rfl (min_le_min le_rfl (pyint_mono hq))
  · have harg : (((8192 : Nat) : ℚ) - 8192) / 8192 * 200 = 0 := by norm_num
    unfold pitchCents
    rw [harg]
    unfold pyint
    rw [if_pos le_rfl, Int.floor_zero]
    decide

/-- Counterexample for C6 as stated: at raw value 8213 the exact cents
are 0.5127…, which the code truncates to 0 while the claim's
`round`-based formula yields 1. -/
theorem c6_pitchbend_counterexample :
    (midiParse ⟨true, "----", 99⟩ (.pitchBend 8213)).pitch = 0
    ∧ centsClaim 8213 = 1
    ∧ (midiParse ⟨true, "----", 99⟩ (.pitchBend 8213)).pitch ≠
        centsClaim 8213 := by
  have harg : (((8213 : Nat) : ℚ) - 8192) / 8192 * 200 = 525 / 1024 := by
    norm_num
  have hf : pyint (525 / 1024 : ℚ) = 0 := by
    unfold pyint
    rw [if_pos (by norm_num)]
    norm_num [Int.floor_eq_iff]
  have h0 : pitchCents 8213 = 0 := by
    unfold pitchCents
    rw [harg, hf]
    decide
  have hr : round ((525 / 1024 : ℚ)) = 1 := by
    rw [round_eq]
    norm_num [Int.floor_eq_iff]
  have hclaim : centsClaim 8213 = 1 := by
    unfold centsClaim
    rw [harg, hr]
    decide
  have hm : midiParse ⟨true, "----", 99⟩ (.pitchBend 8213) =
      ⟨true, "----", 0⟩ := by
    simp [midiParse, h0]
  rw [hm, hclaim]
  exact ⟨rfl, rfl, by decide⟩

/-- Witness for C6: the amended theorem applied at raw values 8192 and
8213. -/
theorem c6_pitchbend_witness :
    (midiParse ⟨true, "----", 0⟩ (.pitchBend 8192)).pitch = pitchCents 8192
    ∧ (-29 ≤ pitchCents 8192 ∧ pitchCents 8192 ≤ 29)
    ∧ pitchCents 8192 ≤ pitchCents 8213
    ∧ pitchCents 8192 = 0 :=
  c6_pitchbend ⟨true, "----", 0⟩ 8192 8213 rfl (by decide) (by decide)

/-! ### Claim C8 -/

/-- Parameters that match neither the type nor the address leave the
SysEx response fold unchanged. -/
theorem foldl_sysexStep_skip (ccMap : Option (List (Int × String)))
    (addr pdata : List Nat) (ps : List (String × SysexParamCfg))
    (acc : SysexResult)
    (h : ∀ p ∈ ps, ¬(p.2.type = some "bool" ∧ p.2.address = addr)) :
    ps.foldl (sysexStep ccMap addr pdata) acc = acc := by
  induction ps generalizing acc with
  | nil => rfl
  | cons q qs ih =>
    have hq : ¬(q.2.type = some "bool" ∧ q.2.address = addr) :=
      h q (by simp)
    rw [List.foldl_cons,
      show sysexStep ccMap addr pdata acc q = acc from by
        simp [sysexStep, hq]]
    exact ih acc (fun p hp => h p (by simp [hp]))

/-- Claim C8 (corrected): a DT1 response (operation byte 0x12) whose
address matches a bool-typed parameter with `cc_alias` c and first data
byte b runs the CC-sync path with derived value `b * 127` — not
`(b != 0) * 127` as claimed — and the toggle entry of the button mapped
to c becomes `b * 127 > 63`, which coincides with `b ≠ 0`; so the
observable toggle outcome is as claimed even though the intermediate
value differs. -/
theorem c8_sysex_toggle_sync (ps₁ ps₂ : List (String × SysexParamCfg))
    (nm : String) (cfg : SysexParamCfg) (c : Int)
    (ccMap : List (Int × String)) (btn : String) (st : Dict)
    (d0 d1 d2 d3 d4 a0 a1 a2 a3 b r0 : Nat) (rest : List Nat)
    (htype : cfg.type = some "bool")
    (haddr : cfg.address = [a0, a1, a2, a3]) (hcc : cfg.ccAlias = some c)
    (hothers : ∀ p ∈ ps₁ ++ ps₂,
      ¬(p.2.type = some "bool" ∧ p.2.address = [a0, a1, a2, a3]))
    (hbtn : nlGet ccMap c = some btn) :
    (handleSysexResponse (ps₁ ++ (nm, cfg) :: ps₂) (some ccMap) st
        (d0 :: d1 :: d2 :: d3 :: d4 :: 18 :: a0 :: a1 :: a2 :: a3 :: b ::
          r0 :: rest)).syncCalls = [(c, (b : Int) * 127)]
    ∧ alGet (handleSysexResponse (ps₁ ++ (nm, cfg) :: ps₂) (some ccMap) st
        (d0 :: d1 :: d2 :: d3 :: d4 :: 18 :: a0 :: a1 :: a2 :: a3 :: b ::
          r0 :: rest)).state ("toggle." ++ btn) =
        some (.bool (decide ((b : Int) * 127 > 63)))
    ∧ (((b : Int) * 127 > 63) ↔ b ≠ 0) := by
  have hmain : handleSysexResponse (ps₁ ++ (nm, cfg) :: ps₂) (some ccMap) st
      (d0 :: d1 :: d2 :: d3 :: d4 :: 18 :: a0 :: a1 :: a2 :: a3 :: b ::
        r0 :: rest) =
      ⟨alSet st ("toggle." ++ btn) (.bool (decide ((b : Int) * 127 > 63))),
       [(c, (b : Int) * 127)]⟩ := by
    unfold handleSysexResponse
    rw [if_neg (by simp only [List.length_cons]; omega)]
    rw [if_neg (by simp)]
    rw [if_pos (show (d0 :: d1 :: d2 :: d3 :: d4 :: 18 :: a0 :: a1 :: a2 ::
      a3 :: b :: r0 :: rest).getD 5 0 = 18 from rfl)]
    show (ps₁ ++ (nm, cfg) :: ps₂).foldl
        (sysexStep (some ccMap) [a0, a1, a2, a3]
          (b :: (r0 :: rest).dropLast)) ⟨st, []⟩ = _
    rw [List.foldl_append,
      foldl_sysexStep_skip (some ccMap) [a0, a1, a2, a3]
        (b :: (r0 :: rest).dropLast) ps₁ ⟨st, []⟩
        (fun p hp => hothers p (List.mem_append_left _ hp)),
      List.foldl_cons,
      show sysexStep (some ccMap) [a0, a1, a2, a3]
          (b :: (r0 :: rest).dropLast) ⟨st, []⟩ (nm, cfg) =
          ⟨syncCcToToggle (some ccMap) st c ((b : Int) * 127),
           [(c, (b : Int) * 127)]⟩ from by
        simp [sysexStep, htype, haddr, hcc],
      foldl_sysexStep_skip (some ccMap) [a0, a1, a2, a3]
        (b :: (r0 :: rest).dropLast) ps₂ _
        (fun p hp => hothers p (List.mem_append_right _ hp))]
    simp [syncCcToToggle, hbtn]
  refine ⟨by rw [hmain], ?_, by omega⟩
  rw [hmain]
  exact alGet_alSet_self st ("toggle." ++ btn) _

/-- Counterexample for C8 as stated: data byte 2 for the matching bool
parameter with `cc_alias` 20 makes the code run the CC-sync path with
derived value 2 * 127 = 254, not (2 != 0) * 127 = 127. -/
theorem c8_sysex_toggle_sync_counterexample :
    (handleSysexResponse
        [("boost", ⟨some "bool", [0, 0, 1, 0], some 20, none, none⟩)]
        (some [(20, "A")]) []
        [16, 1, 2, 3, 4, 18, 0, 0, 1, 0, 2, 99]).syncCalls = [(20, 254)]
    ∧ ((20 : Int), (127 : Int)) ∉
        (handleSysexResponse
          [("boost", ⟨some "bool", [0, 0, 1, 0], some 20, none, none⟩)]
          (some [(20, "A")]) []
          [16, 1, 2, 3, 4, 18, 0, 0, 1, 0, 2, 99]).syncCalls := by
  decide

/-- Witness for C8: the amended theorem applied at the claim's own
instance — data byte 1, `cc_alias` 20, button `A` — whose toggle entry
becomes true. -/
theorem c8_sysex_toggle_sync_witness :
    (handleSysexResponse
        [("boost", ⟨some "bool", [0, 0, 1, 0], some 20, none, none⟩)]
        (some [(20, "A")]) []
        (16 :: 1 :: 2 :: 3 :: 4 :: 18 :: 0 :: 0 :: 1 :: 0 :: 1 :: 99 ::
          [])).syncCalls = [(20, (1 : Int) * 127)]
    ∧ alGet (handleSysexResponse
        [("boost", ⟨some "bool", [0, 0, 1, 0], some 20, none, none⟩)]
        (some [(20, "A")]) []
        (16 :: 1 :: 2 :: 3 :: 4 :: 18 :: 0 :: 0 :: 1 :: 0 :: 1 :: 99 ::
          [])).state ("toggle." ++ "A") =
        some (.bool (decide ((1 : Int) * 127 > 63)))
    ∧ (((1 : Int) * 127 > 63) ↔ (1 : Nat) ≠ 0) :=
  c8_sysex_toggle_sync [] [] "boost"
    ⟨some "bool", [0, 0, 1, 0], some 20, none, none⟩ 20 [(20, "A")] "A" []
    16 1 2 3 4 0 0 1 0 1 99 [] rfl rfl rfl (by simp) rfl

end Remedy
